import Mathlib

/-!
Verification development for the StoryMaker capture bot
(source file: src/storymaker.py).

The development shallow-embeds the three core components of the source:
the speaker parser (extract_speaker_and_body, lines 53-62), the graph
assembler (assemble_story, lines 86-111) and the panel correlator
(on_photo / on_text, lines 117-162).  Python strings are modelled as
Lean strings restricted to the ASCII behaviour the source exercises,
Python dicts as association lists with unique keys, Python float
timestamps as integers (only compared and subtracted), and the external
fetch-and-upload pipeline (download_photo_bytes then
cloudinary_upload_bytes) as an oracle parameter returning either a URL
or an error message.  File writes (save_jsonl, the JSON dump inside
assemble_story) and the Telegram echo reply are output-only side effects
that touch no correlator state and are not part of the embedded values.
-/

/- ---------- Python string primitives (ASCII fragment) ---------- -/

/-- Whitespace set of Python str.strip / lstrip for the ASCII range. -/
def isPyWs (c : Char) : Bool :=
  c == ' ' || c == '\t' || c == '\n' || c == '\r' || c.toNat == 11 || c.toNat == 12

/-- Python str.strip() with no arguments (ASCII whitespace). -/
def pyStrip (s : String) : String :=
  ⟨((s.data.dropWhile isPyWs).reverse.dropWhile isPyWs).reverse⟩

/-- Python str.lstrip() with no arguments (ASCII whitespace). -/
def pyLstrip (s : String) : String :=
  ⟨s.data.dropWhile isPyWs⟩

/-- Python str.rstrip(": ") as used at line 61 of the source. -/
def pyRstripColonSpace (s : String) : String :=
  ⟨(s.data.reverse.dropWhile (fun c => c == ':' || c == ' ')).reverse⟩

/-- ASCII lower-casing of one character, as str.lower does on ASCII. -/
def charLower (c : Char) : Char :=
  if 65 ≤ c.toNat && c.toNat ≤ 90 then Char.ofNat (c.toNat + 32) else c

/-- Python str.lower() on the ASCII fragment. -/
def pyLower (s : String) : String :=
  ⟨s.data.map charLower⟩

/-- Split a character list at each newline; the pieces do not contain
the terminator.  Helper for pySplitlines. -/
def splitOnNl : List Char → List (List Char)
  | [] => [[]]
  | c :: t =>
    match splitOnNl t with
    | [] => [[]]
    | h :: r => if c = '\n' then [] :: h :: r else (c :: h) :: r

/-- Python str.splitlines() restricted to the newline terminator: the
empty string yields no lines, and a trailing newline does not create a
trailing empty line. -/
def pySplitlines (s : String) : List String :=
  if s.data = [] then []
  else
    let parts := (splitOnNl s.data).map (fun l => (⟨l⟩ : String))
    if s.data.getLast? = some '\n' then parts.dropLast else parts

/-- Python "\n".join(...) as used at line 61 of the source. -/
def joinNl : List String → String
  | [] => ""
  | [s] => s
  | s :: rest => s ++ "\n" ++ joinNl rest

/-- Substring test on character lists; helper for strContains. -/
def listContainsSub (needle : List Char) : List Char → Bool
  | [] => needle.isPrefixOf []
  | c :: t => needle.isPrefixOf (c :: t) || listContainsSub needle t

/-- Python membership test: needle in hay. -/
def strContains (hay needle : String) : Bool :=
  listContainsSub needle.data hay.data

/-- Python str.endswith(":"). -/
def pyEndsWithColon (s : String) : Bool :=
  s.data.getLast? == some ':'

/-- Python truthiness of an Optional[str]: None and the empty string
are falsy, every other string is truthy. -/
def pyTruthyOpt : Option String → Bool
  | none => false
  | some s => s != ""

/-- Python `a or b` over two Optional[str] values, returning the first
truthy operand and none when both are falsy (line 130 of the source:
`not (m.text or m.caption)`). -/
def pyOrStr (a b : Option String) : Option String :=
  if pyTruthyOpt a then a else if pyTruthyOpt b then b else none

/- ---------- Speaker parser ---------- -/

/-- The one runtime error class the embedded code can hit. -/
inductive PyErr where
  | attributeError : PyErr
deriving DecidableEq

/-- Faithful embedding of extract_speaker_and_body, lines 53-62 of the
source.  Line 54 builds the list `lines`.  Line 55 reads
`while lines and not lines.strip():` — when `lines` is non-empty the
condition evaluates `lines.strip()` on the *list* object, which raises
AttributeError in Python (line 59, `first = lines.strip()`, has the
same defect).  When `lines` is empty the loop condition short-circuits
and line 57 returns (None, ""). -/
def extract_speaker_and_body (text : String) : Except PyErr (Option String × String) :=
  let lines := pySplitlines text
  if lines.isEmpty then Except.ok (none, "")
  else Except.error PyErr.attributeError

/-- NOT part of the embedded program: a counterfactual used only as
evidence for the code-bug verdict on the parser, showing that the
one-token repair `lines` → `lines[0]` at lines 55 and 59 (exactly what
the neighbouring `lines.pop(0)` at line 56 and `lines[1:]` at line 61
presuppose) yields the behaviour the spec describes.  Under that
repair, and with everything else following the source text literally:
the first non-blank line is accepted as a speaker iff its stripped
form has length at most 32 and (lower-cases to "narration", or
contains "slayer", or ends with a colon); on acceptance the trailing
colons and spaces are removed and the remaining lines are joined and
left-stripped, otherwise the original text is returned untouched
(line 62).  The correlator embedding below does not use this
definition. -/
def extract_speaker_and_body_repaired (text : String) : Option String × String :=
  let lines := (pySplitlines text).dropWhile (fun ln => pyStrip ln == "")
  match lines with
  | [] => (none, "")
  | first0 :: rest =>
    let first := pyStrip first0
    if first.length ≤ 32 ∧
        (pyLower first = "narration" ∨ strContains (pyLower first) "slayer" ∨
          pyEndsWithColon first)
    then (some (pyRstripColonSpace first), pyLstrip (joinNl rest))
    else (none, text)

/- ---------- Data model ---------- -/

/-- Panel dataclass, lines 33-40 of the source.  Timestamps are
modelled as integers (the source only stores, subtracts and compares
them). -/
structure Panel where
  ts : Int
  chat_id : Int
  user_id : Int
  speaker : Option String
  text : String
  photo_url : Option String
deriving DecidableEq

/-- One entry of a node's "choices" list (line 95 of the source). -/
structure Choice where
  label : String
  key : String
deriving DecidableEq

/-- One story node as built at lines 92-98.  The photo field models
the optional "photo" key of the node dict: none means the key is
absent (the source never writes a null value). -/
structure Node where
  text : String
  type : String
  choices : List Choice
  photo : Option String
deriving DecidableEq

/-- The meta object of the story bundle (line 104). -/
structure MetaInfo where
  title : String
  intro : String
deriving DecidableEq

/-- StoryBundle dataclass, lines 42-46.  The nodes and callbacks dicts
are association lists in insertion order with unique keys, matching
Python dict semantics for the keys the assembler generates. -/
structure StoryBundle where
  meta : MetaInfo
  nodes : List (String × Node)
  callbacks : List (String × String)
deriving DecidableEq

/-- PANEL_GAP_SEC, line 13 of the source. -/
def PANEL_GAP_SEC : Int := 25

/-- STORY_ID, line 15 of the source. -/
def STORY_ID : String := "captured_story"

/-- STORY_TITLE, line 16 of the source. -/
def STORY_TITLE : String := "Captured Story"

/- ---------- Decimal formatting (Python f"{i:04d}") ---------- -/

/-- Decimal digit characters of n, most significant first; the first
argument is structural fuel (any fuel at least n is exact). -/
def decDigitsAux : Nat → Nat → List Char
  | 0, _ => []
  | fuel + 1, n => if n = 0 then [] else decDigitsAux fuel (n / 10) ++ [Char.ofNat (48 + n % 10)]

/-- Python f"{i:04d}": decimal digits of i, left-padded with zeros to
at least four characters. -/
def fmt04 (i : Nat) : String :=
  let ds := decDigitsAux i i
  ⟨List.replicate (4 - ds.length) '0' ++ ds⟩

/-- Node identifier for 1-based position i (line 90 of the source). -/
def nodeId (i : Nat) : String := "node_" ++ fmt04 i

/-- Transition key targeting 1-based position i (lines 95 and 101). -/
def gotoKey (i : Nat) : String := STORY_ID ++ ":goto:" ++ fmt04 i

/- ---------- Python dict operations on association lists ---------- -/

/-- Python dict lookup (d.get(k) / d[k] read). -/
def dget {κ V : Type} [DecidableEq κ] : List (κ × V) → κ → Option V
  | [], _ => none
  | kv :: rest, k => if kv.1 = k then some kv.2 else dget rest k

/-- Python dict assignment d[k] = v: overwrite in place when the key
is present, append otherwise. -/
def dictSet {κ V : Type} [DecidableEq κ] (d : List (κ × V)) (k : κ) (v : V) : List (κ × V) :=
  match dget d k with
  | some _ => d.map (fun kv => if kv.1 = k then (k, v) else kv)
  | none => d ++ [(k, v)]

/-- Python d.pop(k, None): drop the entry for k when present. -/
def dictPop {κ V : Type} [DecidableEq κ] : List (κ × V) → κ → List (κ × V)
  | [], _ => []
  | kv :: rest, k => if kv.1 = k then rest else kv :: dictPop rest k

/- ---------- Graph assembler ---------- -/

/-- The node dict built for the panel at 1-based position i of n total
panels, lines 91-98 of the source: the text is the f-string
f"{p.speaker}\n\n{p.text}" stripped when the speaker is truthy and the
panel text otherwise; a single Continue choice points at the next
position except at the last panel; the photo key is set only when
photo_url is truthy. -/
def panelNode (n i : Nat) (p : Panel) : Node :=
  { text := if pyTruthyOpt p.speaker then pyStrip (p.speaker.getD "" ++ "\n\n" ++ p.text)
            else p.text,
    type := "choice",
    choices := if i < n then [⟨"Continue", gotoKey (i + 1)⟩] else [],
    photo := if pyTruthyOpt p.photo_url then p.photo_url else none }

/-- The for-loop of assemble_story, lines 89-102: positions are
1-based, each iteration stores the node under nodeId i, and from the
second iteration on (prev_id truthy) registers
callbacks[gotoKey i] = nodeId i. -/
def assembleLoop (n : Nat) :
    Nat → List Panel → List (String × Node) → List (String × String) → Option String →
      List (String × Node) × List (String × String)
  | _, [], nodes, callbacks, _ => (nodes, callbacks)
  | i, p :: rest, nodes, callbacks, prev =>
    let nid := nodeId i
    let callbacks1 := if pyTruthyOpt prev then dictSet callbacks (gotoKey i) nid else callbacks
    assembleLoop n (i + 1) rest (dictSet nodes nid (panelNode n i p)) callbacks1 (some nid)

/-- assemble_story, lines 86-111 of the source (the JSON dump at lines
109-110 is a pure serialisation of the returned bundle and is not part
of the value).  meta.intro is "node_0001" when the nodes dict is
non-empty and "" otherwise (line 104). -/
def assemble_story (panels : List Panel) : StoryBundle :=
  let r := assembleLoop panels.length 1 panels [] [] none
  { meta := { title := STORY_TITLE, intro := if r.1.isEmpty then "" else "node_0001" },
    nodes := r.1,
    callbacks := r.2 }

/- ---------- Panel correlator ---------- -/

/-- One pending-media registry entry, line 49 of the source:
{"ts": float, "file_id": str}. -/
structure PendingEntry where
  ts : Int
  file_id : String
deriving DecidableEq

/-- The mutable module state, lines 49-50: the pending-media registry
keyed by (chat_id, user_id), and the global ordered panel list. -/
structure CorrState where
  last_media_by_user : List ((Int × Int) × PendingEntry)
  panels : List Panel
deriving DecidableEq

/-- on_photo, lines 117-126: unconditionally overwrite the pending
entry for (chat_id, uid) with the arrival time and the file id of the
largest photo size.  No panel is produced. -/
def on_photo (st : CorrState) (chat_id uid : Int) (now : Int) (file_id : String) : CorrState :=
  { st with
    last_media_by_user :=
      dictSet st.last_media_by_user (chat_id, uid) { ts := now, file_id := file_id } }

/-- The fetch-then-upload pipeline of lines 142-143 seen from the
correlator: on success the Cloudinary URL, on any exception none (the
except block at lines 145-146 logs and falls through). -/
def resolveUrl (resolve : String → Except String String) (fid : String) : Option String :=
  match resolve fid with
  | Except.ok url => some url
  | Except.error _ => none

/-- on_text, lines 128-162 of the source, faithful to the error path.
The result pairs the module state after the handler with the exception
it raised, if any (none: returned normally).  Line 130 drops the event
when neither text nor caption is truthy.  Line 135 calls
extract_speaker_and_body; when that raises (which it does on every
non-empty raw text, see its definition) the exception propagates out
of the handler before any state is touched, so the registry and the
panel store are unchanged.  In the return path of the parser:
lines 137-148 look up the pending entry for the key; only when it
exists and lies within PANEL_GAP_SEC is the fetch-and-upload
attempted, and the finally block pops the entry — the pop therefore
happens only in the within-window branch, whatever the resolver
outcome.  Lines 150-158 build the panel (text is the body when the
speaker is truthy, the full raw text otherwise, line 155) and append
it to the global list.  save_jsonl, the assemble_story call and the
echo reply that follow do not modify the registry or the panel
list. -/
def on_text (resolve : String → Except String String) (st : CorrState)
    (chat_id uid : Int) (text caption : Option String) (now : Int) :
    CorrState × Option PyErr :=
  match pyOrStr text caption with
  | none => (st, none)
  | some raw =>
    match extract_speaker_and_body raw with
    | Except.error e => (st, some e)
    | Except.ok sb =>
      match dget st.last_media_by_user (chat_id, uid) with
      | some entry =>
        if now - entry.ts ≤ PANEL_GAP_SEC then
          let p : Panel :=
            { ts := now, chat_id := chat_id, user_id := uid, speaker := sb.1,
              text := if pyTruthyOpt sb.1 then sb.2 else raw,
              photo_url := resolveUrl resolve entry.file_id }
          ({ last_media_by_user := dictPop st.last_media_by_user (chat_id, uid),
             panels := st.panels ++ [p] }, none)
        else
          let p : Panel :=
            { ts := now, chat_id := chat_id, user_id := uid, speaker := sb.1,
              text := if pyTruthyOpt sb.1 then sb.2 else raw,
              photo_url := none }
          ({ last_media_by_user := st.last_media_by_user,
             panels := st.panels ++ [p] }, none)
      | none =>
        let p : Panel :=
          { ts := now, chat_id := chat_id, user_id := uid, speaker := sb.1,
            text := if pyTruthyOpt sb.1 then sb.2 else raw,
            photo_url := none }
        ({ last_media_by_user := st.last_media_by_user,
           panels := st.panels ++ [p] }, none)

/- ---------- Arithmetic facts about the decimal formatter ---------- -/

/-- Decimal re-reading of a character list, with running accumulator. -/
def unvalFrom (a : Nat) (l : List Char) : Nat :=
  l.foldl (fun x c => x * 10 + (c.toNat - 48)) a

lemma digitChar_toNat (m : Nat) (h : m < 10) : (Char.ofNat (48 + m)).toNat = 48 + m := by
  interval_cases m <;> decide

lemma unvalFrom_decDigitsAux : ∀ fuel n a : Nat, n ≤ fuel →
    unvalFrom a (decDigitsAux fuel n) = a * 10 ^ (decDigitsAux fuel n).length + n := by
  intro fuel
  induction fuel with
  | zero =>
    intro n a h
    have hn : n = 0 := by omega
    subst hn
    simp [decDigitsAux, unvalFrom]
  | succ fuel ih =>
    intro n a h
    by_cases h0 : n = 0
    · subst h0
      simp [decDigitsAux, unvalFrom]
    · have hstep : decDigitsAux (fuel + 1) n
          = decDigitsAux fuel (n / 10) ++ [Char.ofNat (48 + n % 10)] := by
        simp [decDigitsAux, h0]
      have hdiv : n / 10 ≤ fuel := by
        have : n / 10 < n := Nat.div_lt_self (by omega) (by norm_num)
        omega
      have hmod : n % 10 < 10 := Nat.mod_lt n (by norm_num)
      rw [hstep]
      rw [show unvalFrom a (decDigitsAux fuel (n / 10) ++ [Char.ofNat (48 + n % 10)])
            = unvalFrom a (decDigitsAux fuel (n / 10)) * 10
              + ((Char.ofNat (48 + n % 10)).toNat - 48) by
        simp [unvalFrom, List.foldl_append]]
      rw [ih (n / 10) a hdiv, digitChar_toNat (n % 10) hmod]
      have key : (n / 10) * 10 + n % 10 = n := by omega
      rw [List.length_append]
      calc (a * 10 ^ (decDigitsAux fuel (n / 10)).length + n / 10) * 10 + (48 + n % 10 - 48)
          = a * (10 ^ (decDigitsAux fuel (n / 10)).length * 10) + ((n / 10) * 10 + n % 10) := by
            ring_nf
            omega
        _ = a * 10 ^ ((decDigitsAux fuel (n / 10)).length + 1) + n := by
            rw [key, pow_succ]
        _ = a * 10 ^ ((decDigitsAux fuel (n / 10)).length + [Char.ofNat (48 + n % 10)].length) + n := by
            simp

lemma unvalFrom_zeros : ∀ k : Nat, unvalFrom 0 (List.replicate k '0') = 0 := by
  intro k
  induction k with
  | zero => rfl
  | succ k ih =>
    rw [List.replicate_succ]
    simpa [unvalFrom] using ih

/-- Decimal value of a rendered string. -/
def strVal (s : String) : Nat := unvalFrom 0 s.data

lemma strVal_fmt04 (i : Nat) : strVal (fmt04 i) = i := by
  show unvalFrom 0 (List.replicate (4 - (decDigitsAux i i).length) '0' ++ decDigitsAux i i) = i
  rw [show ∀ l1 l2 : List Char, unvalFrom 0 (l1 ++ l2) = unvalFrom (unvalFrom 0 l1) l2 by
    intro l1 l2; simp [unvalFrom, List.foldl_append]]
  rw [unvalFrom_zeros]
  rw [unvalFrom_decDigitsAux i i 0 (Nat.le_refl i)]
  simp

lemma fmt04_inj {a b : Nat} (h : fmt04 a = fmt04 b) : a = b := by
  have h2 := congrArg strVal h
  rwa [strVal_fmt04, strVal_fmt04] at h2

lemma nodeId_inj {a b : Nat} (h : nodeId a = nodeId b) : a = b := by
  have hd := congrArg String.data h
  simp only [nodeId, String.data_append] at hd
  have hfd := List.append_cancel_left hd
  have h2 : strVal (fmt04 a) = strVal (fmt04 b) := congrArg (unvalFrom 0) hfd
  rwa [strVal_fmt04, strVal_fmt04] at h2

lemma gotoKey_inj {a b : Nat} (h : gotoKey a = gotoKey b) : a = b := by
  have hd := congrArg String.data h
  simp only [gotoKey, STORY_ID, String.data_append] at hd
  have hfd := List.append_cancel_left hd
  have h2 : strVal (fmt04 a) = strVal (fmt04 b) := congrArg (unvalFrom 0) hfd
  rwa [strVal_fmt04, strVal_fmt04] at h2

lemma nodeId_ne_empty (i : Nat) : nodeId i ≠ "" := by
  intro h
  have hd := congrArg String.data h
  simp only [nodeId, String.data_append] at hd
  simp [show ("node_" : String).data = ['n', 'o', 'd', 'e', '_'] from rfl] at hd

/- ---------- Association-list dictionary lemmas ---------- -/

lemma dget_append_none {κ V : Type} [DecidableEq κ] {k : κ} :
    ∀ (a b : List (κ × V)), dget a k = none → dget (a ++ b) k = dget b k := by
  intro a b
  induction a with
  | nil => intro _; rfl
  | cons kv t ih =>
    intro h
    by_cases hk : kv.1 = k
    · simp [dget, hk] at h
    · rw [List.cons_append]
      simp only [dget, hk, if_false] at h ⊢
      exact ih h

lemma dictSet_of_none {κ V : Type} [DecidableEq κ] {d : List (κ × V)} {k : κ} {v : V}
    (h : dget d k = none) : dictSet d k v = d ++ [(k, v)] := by
  simp [dictSet, h]

/- ---------- Closed form of the assembler loop ---------- -/

/-- Reference shape of the nodes dict produced from position i on. -/
def nodesFrom (n i : Nat) : List Panel → List (String × Node)
  | [] => []
  | p :: rest => (nodeId i, panelNode n i p) :: nodesFrom n (i + 1) rest

/-- Reference shape of the callbacks dict produced from position i on
(one entry per remaining panel, keyed gotoKey i and valued nodeId i). -/
def cbsFrom (i : Nat) : List Panel → List (String × String)
  | [] => []
  | _ :: rest => (gotoKey i, nodeId i) :: cbsFrom (i + 1) rest

lemma assembleLoop_closed (n : Nat) :
    ∀ (ps : List Panel) (i : Nat) (nodes : List (String × Node))
      (cbs : List (String × String)) (pv : String),
      pv ≠ "" →
      (∀ j, i ≤ j → dget nodes (nodeId j) = none) →
      (∀ j, i ≤ j → dget cbs (gotoKey j) = none) →
      assembleLoop n i ps nodes cbs (some pv)
        = (nodes ++ nodesFrom n i ps, cbs ++ cbsFrom i ps) := by
  intro ps
  induction ps with
  | nil =>
    intro i nodes cbs pv _ _ _
    simp [assembleLoop, nodesFrom, cbsFrom]
  | cons p rest ih =>
    intro i nodes cbs pv hpv hn hc
    have hpvt : pyTruthyOpt (some pv) = true := by
      simp [pyTruthyOpt, hpv]
    have hsetn : dictSet nodes (nodeId i) (panelNode n i p)
        = nodes ++ [(nodeId i, panelNode n i p)] :=
      dictSet_of_none (hn i (Nat.le_refl i))
    have hsetc : dictSet cbs (gotoKey i) (nodeId i)
        = cbs ++ [(gotoKey i, nodeId i)] :=
      dictSet_of_none (hc i (Nat.le_refl i))
    have hn1 : ∀ j, i + 1 ≤ j →
        dget (nodes ++ [(nodeId i, panelNode n i p)]) (nodeId j) = none := by
      intro j hj
      rw [dget_append_none _ _ (hn j (by omega))]
      have : nodeId i ≠ nodeId j := fun hcontra => by
        have := nodeId_inj hcontra; omega
      simp [dget, this]
    have hc1 : ∀ j, i + 1 ≤ j →
        dget (cbs ++ [(gotoKey i, nodeId i)]) (gotoKey j) = none := by
      intro j hj
      rw [dget_append_none _ _ (hc j (by omega))]
      have : gotoKey i ≠ gotoKey j := fun hcontra => by
        have := gotoKey_inj hcontra; omega
      simp [dget, this]
    show assembleLoop n i (p :: rest) nodes cbs (some pv)
        = (nodes ++ nodesFrom n i (p :: rest), cbs ++ cbsFrom i (p :: rest))
    rw [show assembleLoop n i (p :: rest) nodes cbs (some pv)
        = assembleLoop n (i + 1) rest
            (dictSet nodes (nodeId i) (panelNode n i p))
            (if pyTruthyOpt (some pv) then dictSet cbs (gotoKey i) (nodeId i) else cbs)
            (some (nodeId i)) from rfl]
    rw [hpvt, if_pos rfl, hsetn, hsetc]
    rw [ih (i + 1) _ _ (nodeId i) (nodeId_ne_empty i) hn1 hc1]
    simp [nodesFrom, cbsFrom, List.append_assoc]

lemma assemble_story_closed (panels : List Panel) (h : panels ≠ []) :
    assemble_story panels
      = ⟨⟨STORY_TITLE, "node_0001"⟩,
         nodesFrom panels.length 1 panels,
         cbsFrom 2 panels.tail⟩ := by
  obtain ⟨p, rest, rfl⟩ := List.exists_cons_of_ne_nil h
  have hstep : assembleLoop (p :: rest).length 1 (p :: rest) [] [] none
      = assembleLoop (p :: rest).length 2 rest [(nodeId 1, panelNode (p :: rest).length 1 p)] []
          (some (nodeId 1)) := by
    rfl
  have hn1 : ∀ j, 2 ≤ j →
      dget [(nodeId 1, panelNode (p :: rest).length 1 p)] (nodeId j) = none := by
    intro j hj
    have : nodeId 1 ≠ nodeId j := fun hcontra => by
      have := nodeId_inj hcontra; omega
    simp [dget, this]
  have hc1 : ∀ j, 2 ≤ j → dget ([] : List (String × String)) (gotoKey j) = none := by
    intro j _; rfl
  have hloop := assembleLoop_closed (p :: rest).length rest 2
      [(nodeId 1, panelNode (p :: rest).length 1 p)] [] (nodeId 1)
      (nodeId_ne_empty 1) hn1 hc1
  unfold assemble_story
  rw [hstep, hloop]
  have hnodes : [(nodeId 1, panelNode (p :: rest).length 1 p)]
        ++ nodesFrom (p :: rest).length 2 rest
      = nodesFrom (p :: rest).length 1 (p :: rest) := by
    simp [nodesFrom]
  simp only [hnodes]
  simp [nodesFrom, cbsFrom, List.tail]

lemma dget_nodesFrom (n : Nat) :
    ∀ (ps : List Panel) (i j : Nat),
      dget (nodesFrom n i ps) (nodeId j)
        = if i ≤ j then (ps.get? (j - i)).map (panelNode n j) else none := by
  intro ps
  induction ps with
  | nil =>
    intro i j
    by_cases hle : i ≤ j <;> simp [nodesFrom, dget, hle]
  | cons p rest ih =>
    intro i j
    by_cases hij : i = j
    · subst hij
      simp [nodesFrom, dget]
    · have hne : nodeId i ≠ nodeId j := fun hcontra => hij (nodeId_inj hcontra)
      rw [show nodesFrom n i (p :: rest)
          = (nodeId i, panelNode n i p) :: nodesFrom n (i + 1) rest from rfl]
      simp only [dget, hne, if_false]
      rw [ih (i + 1) j]
      by_cases hle : i ≤ j
      · have hle1 : i + 1 ≤ j := by omega
        rw [if_pos hle1, if_pos hle]
        have hsub : j - i = (j - (i + 1)) + 1 := by omega
        rw [hsub]
        simp
      · have hle1 : ¬ i + 1 ≤ j := by omega
        rw [if_neg hle1, if_neg hle]

lemma dget_cbsFrom :
    ∀ (ps : List Panel) (i j : Nat),
      dget (cbsFrom i ps) (gotoKey j)
        = if i ≤ j ∧ j - i < ps.length then some (nodeId j) else none := by
  intro ps
  induction ps with
  | nil =>
    intro i j
    simp [cbsFrom, dget]
  | cons p rest ih =>
    intro i j
    by_cases hij : i = j
    · subst hij
      have hcond : i ≤ i ∧ i - i < (p :: rest).length := by
        constructor
        · exact Nat.le_refl i
        · simp
      simp [cbsFrom, dget, hcond]
    · have hne : gotoKey i ≠ gotoKey j := fun hcontra => hij (gotoKey_inj hcontra)
      rw [show cbsFrom i (p :: rest) = (gotoKey i, nodeId i) :: cbsFrom (i + 1) rest from rfl]
      simp only [dget, hne, if_false]
      rw [ih (i + 1) j]
      by_cases hcond : i ≤ j ∧ j - i < (p :: rest).length
      · have hcond1 : i + 1 ≤ j ∧ j - (i + 1) < rest.length := by
          simp at hcond
          omega
        rw [if_pos hcond1, if_pos hcond]
      · have hcond1 : ¬ (i + 1 ≤ j ∧ j - (i + 1) < rest.length) := by
          simp at hcond ⊢
          intro h1
          have := hcond (by omega)
          omega
        rw [if_neg hcond1, if_neg hcond]

/- ---------- Correlator step lemmas ---------- -/

lemma pyOrStr_pos (raw : String) (cap : Option String) (h : raw ≠ "") :
    pyOrStr (some raw) cap = some raw := by
  simp [pyOrStr, pyTruthyOpt, h]

lemma splitOnNl_ne_nil (l : List Char) : splitOnNl l ≠ [] := by
  cases l with
  | nil => simp [splitOnNl]
  | cons c t =>
    simp only [splitOnNl]
    cases hs : splitOnNl t with
    | nil => simp
    | cons h r =>
      show ¬ (if c = '\n' then [] :: h :: r else (c :: h) :: r) = []
      split <;> simp

lemma mem_of_getLast_eq_some {α : Type} : ∀ (l : List α) (a : α), l.getLast? = some a → a ∈ l := by
  intro l
  induction l with
  | nil => intro a h; simp at h
  | cons b t ih =>
    intro a h
    cases t with
    | nil =>
      simp at h
      simp [h]
    | cons c t2 =>
      rw [List.getLast?_cons_cons] at h
      exact List.mem_cons_of_mem b (ih a h)

lemma two_le_splitOnNl_of_mem : ∀ l : List Char, '\n' ∈ l → 2 ≤ (splitOnNl l).length := by
  intro l
  induction l with
  | nil => intro h; simp at h
  | cons c t ih =>
    intro h
    simp only [splitOnNl]
    cases hs : splitOnNl t with
    | nil => exact absurd hs (splitOnNl_ne_nil t)
    | cons h0 r =>
      by_cases hc : c = '\n'
      · simp [hc]
      · have ht : '\n' ∈ t := by
          rcases List.mem_cons.mp h with h1 | h1
          · exact absurd h1.symm hc
          · exact h1
        have h2 := ih ht
        rw [hs] at h2
        simp only [hc, if_false, List.length_cons] at h2 ⊢
        omega

lemma pySplitlines_eq (s : String) (hd : s.data ≠ []) :
    pySplitlines s
      = (if s.data.getLast? = some '\n'
         then ((splitOnNl s.data).map (fun l => (⟨l⟩ : String))).dropLast
         else (splitOnNl s.data).map (fun l => (⟨l⟩ : String))) := by
  unfold pySplitlines
  rw [if_neg hd]

lemma pySplitlines_ne_nil (s : String) (h : s ≠ "") : pySplitlines s ≠ [] := by
  have hd : s.data ≠ [] := by
    intro hc
    apply h
    cases s with
    | mk d =>
      have hd2 : d = [] := hc
      subst hd2
      rfl
  rw [pySplitlines_eq s hd]
  by_cases hl : s.data.getLast? = some '\n'
  · rw [if_pos hl]
    intro hcontra
    have hlen := congrArg List.length hcontra
    have hmem : '\n' ∈ s.data := mem_of_getLast_eq_some s.data _ hl
    have h2 := two_le_splitOnNl_of_mem s.data hmem
    simp [List.length_dropLast] at hlen
    omega
  · rw [if_neg hl]
    intro hcontra
    rw [List.map_eq_nil_iff] at hcontra
    exact splitOnNl_ne_nil s.data hcontra

lemma extract_error_of_ne_empty (s : String) (h : s ≠ "") :
    extract_speaker_and_body s = Except.error PyErr.attributeError := by
  have hne := pySplitlines_ne_nil s h
  cases hps : pySplitlines s with
  | nil => exact absurd hps hne
  | cons a l => simp [extract_speaker_and_body, hps]

/- ---------- Component projections of the closed form ---------- -/

lemma assemble_nodes_eq (panels : List Panel) (hne : panels ≠ []) :
    (assemble_story panels).nodes = nodesFrom panels.length 1 panels := by
  rw [assemble_story_closed panels hne]

lemma assemble_cbs_eq (panels : List Panel) (hne : panels ≠ []) :
    (assemble_story panels).callbacks = cbsFrom 2 panels.tail := by
  rw [assemble_story_closed panels hne]

lemma assemble_intro_eq (panels : List Panel) (hne : panels ≠ []) :
    (assemble_story panels).meta.intro = "node_0001" := by
  rw [assemble_story_closed panels hne]

lemma nodeId_one : nodeId 1 = "node_0001" := by decide

/- ---------- Demo values used by the witnesses ---------- -/

/-- A two-panel sequence for instantiating the assembler theorems. -/
def demoPanels : List Panel :=
  [⟨0, 1, 5, none, "one", none⟩, ⟨1, 1, 5, some "A", "two", some "http://x"⟩]

/-- A correlator state holding one pending entry for key (1, 5). -/
def demoStateA : CorrState := ⟨[((1, 5), ⟨0, "fid"⟩)], []⟩

/- ---------- Claim theorems ---------- -/

/-- C1 counterexample: after a photo event at t=0 for key (1, 5) and a
text event at t=30 (window 25), the handler raises AttributeError from
the parser slip at line 135 and returns the state untouched: the
pending entry is still present (the claim asserts it is removed) and
the panel list is empty, so there is no resulting panel at all. -/
theorem C1_always_consume_counterexample :
    on_text (fun _ => Except.ok "http://img") (on_photo ⟨[], []⟩ 1 5 0 "fid")
        1 5 (some "Hello") none 30
      = (⟨[((1, 5), ⟨0, "fid"⟩)], []⟩, some PyErr.attributeError) := by
  decide

/-- C1 (amended): processing a text event with non-empty text never
removes the pending entry, inside or outside the correlation window:
the parser call at line 135 raises AttributeError before the
correlation code at lines 137-148 runs, so the handler propagates the
exception with the registry and the panel store unchanged and no
panel is produced. -/
theorem C1_text_event_leaves_state (resolve : String → Except String String)
    (st : CorrState) (c u : Int) (raw : String) (cap : Option String) (now : Int)
    (hraw : raw ≠ "") :
    on_text resolve st c u (some raw) cap now = (st, some PyErr.attributeError) := by
  have h1 : pyOrStr (some raw) cap = some raw := pyOrStr_pos raw cap hraw
  have h2 : extract_speaker_and_body raw = Except.error PyErr.attributeError :=
    extract_error_of_ne_empty raw hraw
  simp only [on_text, h1, h2]

/-- C1 witness: a within-window text event also leaves the pending
entry for (1, 5) in place and appends nothing. -/
theorem C1_text_event_leaves_state_witness :
    on_text (fun _ => Except.ok "u") demoStateA 1 5 (some "Hello") none 10
      = (demoStateA, some PyErr.attributeError) :=
  C1_text_event_leaves_state (fun _ => Except.ok "u") demoStateA 1 5 "Hello" none 10
    (by decide)

/-- C2: the speaker parser is not total — on any input whose line list
is non-empty, line 55 calls .strip() on the list `lines` and raises
AttributeError; only the all-blank input path returns normally. -/
theorem C2_parser_crash_eval :
    extract_speaker_and_body "a" = Except.error PyErr.attributeError
    ∧ extract_speaker_and_body "" = Except.ok (none, "") :=
  ⟨rfl, rfl⟩

/-- C3: the three example inputs of the claim all raise AttributeError
in the code as written; with the evident lines[0] repair the parser
returns exactly the values the claim states. -/
theorem C3_parser_examples_eval :
    extract_speaker_and_body "Slayer:\nHello" = Except.error PyErr.attributeError
    ∧ extract_speaker_and_body_repaired "Slayer:\nHello" = (some "Slayer", "Hello")
    ∧ extract_speaker_and_body_repaired "Narration\nThe sun sets."
        = (some "Narration", "The sun sets.")
    ∧ extract_speaker_and_body_repaired "Just some text" = (none, "Just some text") := by
  refine ⟨rfl, ?_, ?_, ?_⟩ <;> decide

/-- C4: the assembler is a pure function of the panel sequence — equal
sequences give identical documents. -/
theorem C4_assemble_deterministic (ps qs : List Panel) (h : ps = qs) :
    assemble_story ps = assemble_story qs := by
  rw [h]

/-- C4 witness at a concrete sequence. -/
theorem C4_assemble_deterministic_witness :
    assemble_story demoPanels = assemble_story demoPanels :=
  C4_assemble_deterministic demoPanels demoPanels rfl

/-- C5: for a non-empty panel sequence of length n, every interior
node i has the single choice keyed gotoKey (i+1), the callbacks dict
maps gotoKey (i+1) to nodeId (i+1), node n has no choices, and the
intro node id is nodeId 1. -/
theorem C5_chaining_terminal_intro (panels : List Panel) (hne : panels ≠ []) :
    (∀ i, 1 ≤ i → i < panels.length →
        (dget (assemble_story panels).nodes (nodeId i)).map Node.choices
            = some [⟨"Continue", gotoKey (i + 1)⟩]
          ∧ dget (assemble_story panels).callbacks (gotoKey (i + 1)) = some (nodeId (i + 1)))
    ∧ (dget (assemble_story panels).nodes (nodeId panels.length)).map Node.choices = some []
    ∧ (assemble_story panels).meta.intro = nodeId 1 := by
  refine ⟨?_, ?_, ?_⟩
  · intro i h1 h2
    constructor
    · rw [assemble_nodes_eq panels hne]
      rw [dget_nodesFrom panels.length panels 1 i, if_pos h1]
      have hlt : i - 1 < panels.length := by omega
      rw [List.get?_eq_get hlt]
      simp [panelNode, h2]
    · rw [assemble_cbs_eq panels hne]
      rw [dget_cbsFrom panels.tail 2 (i + 1)]
      have hcond : 2 ≤ i + 1 ∧ (i + 1) - 2 < panels.tail.length := by
        rw [List.length_tail]
        omega
      rw [if_pos hcond]
  · rw [assemble_nodes_eq panels hne]
    have h1 : 1 ≤ panels.length := by
      have := List.length_pos.mpr hne
      omega
    rw [dget_nodesFrom panels.length panels 1 panels.length, if_pos h1]
    have hlt : panels.length - 1 < panels.length := by omega
    rw [List.get?_eq_get hlt]
    simp [panelNode]
  · rw [assemble_intro_eq panels hne, nodeId_one]

/-- C5 witness on the two-panel demo sequence. -/
theorem C5_chaining_terminal_intro_witness :
    ((dget (assemble_story demoPanels).nodes (nodeId 1)).map Node.choices
        = some [⟨"Continue", gotoKey 2⟩]
      ∧ dget (assemble_story demoPanels).callbacks (gotoKey 2) = some (nodeId 2))
    ∧ (dget (assemble_story demoPanels).nodes (nodeId demoPanels.length)).map Node.choices
        = some []
    ∧ (assemble_story demoPanels).meta.intro = nodeId 1 :=
  ⟨(C5_chaining_terminal_intro demoPanels (by decide)).1 1 (by decide) (by decide),
   (C5_chaining_terminal_intro demoPanels (by decide)).2⟩

/-- C6 counterexample: the source strips the concatenation (line 91
calls .strip() on the f-string) and treats an empty speaker string as
absent, so node text is not always speaker ++ "\n\n" ++ text when a
speaker is present: a panel with speaker "A" and text "hi " yields
"A\n\nhi", and a panel with speaker "" and text "x" yields "x". -/
theorem C6_node_text_counterexample :
    ((dget (assemble_story [⟨0, 0, 0, some "A", "hi ", none⟩]).nodes (nodeId 1)).map Node.text
        = some "A\n\nhi"
      ∧ some "A\n\nhi" ≠ some ("A" ++ "\n\n" ++ "hi "))
    ∧ ((dget (assemble_story [⟨0, 0, 0, some "", "x", none⟩]).nodes (nodeId 1)).map Node.text
        = some "x"
      ∧ some "x" ≠ some ("" ++ "\n\n" ++ "x")) := by
  decide

/-- C6 (amended): the assembled node text is the whitespace-stripped
concatenation speaker ++ "\n\n" ++ text when the speaker is present
and non-empty, and exactly the panel text when the speaker is absent
or empty. -/
theorem C6_node_text_amended (panels : List Panel) (i : Nat) (p : Panel)
    (h1 : 1 ≤ i) (hp : panels.get? (i - 1) = some p) :
    (dget (assemble_story panels).nodes (nodeId i)).map Node.text
      = some (if pyTruthyOpt p.speaker then pyStrip (p.speaker.getD "" ++ "\n\n" ++ p.text)
              else p.text) := by
  have hne : panels ≠ [] := by
    intro hcontra
    subst hcontra
    simp at hp
  rw [assemble_nodes_eq panels hne]
  rw [dget_nodesFrom panels.length panels 1 i, if_pos h1, hp]
  rfl

/-- C6 witness at the stripped-text panel. -/
theorem C6_node_text_amended_witness :
    (dget (assemble_story [⟨0, 0, 0, some "A", "hi ", none⟩]).nodes (nodeId 1)).map Node.text
      = some (if pyTruthyOpt (some "A") then pyStrip ("A" ++ "\n\n" ++ "hi ") else "hi ") :=
  C6_node_text_amended [⟨0, 0, 0, some "A", "hi ", none⟩] 1 ⟨0, 0, 0, some "A", "hi ", none⟩
    (by decide) (by decide)

/-- C7: the recovery the claim describes is unreachable in the source.
With a pending entry in window (state demoStateA, entry at t=0, text
at t=10) and a resolver that fails, the text event raises
AttributeError at line 135 before the try/except/finally of lines
140-148 is reached: no panel is created, the pending entry is not
consumed, and the exception escapes the correlator. -/
theorem C7_resolver_failure_crash_eval :
    on_text (fun _ => Except.error "boom") demoStateA 1 5 (some "Hello") none 10
      = (demoStateA, some PyErr.attributeError) := by
  decide

/-- C8: a text event whose text is empty or missing and which carries
no caption content is dropped by the guard at lines 130-131, before
the parser is called: no panel is appended, neither the panel store
nor the pending-media registry changes, and no exception is raised. -/
theorem C8_empty_event_dropped (resolve : String → Except String String)
    (st : CorrState) (c u : Int) (text caption : Option String) (now : Int)
    (ht : text = none ∨ text = some "") (hcap : caption = none ∨ caption = some "") :
    on_text resolve st c u text caption now = (st, none) := by
  have hor : pyOrStr text caption = none := by
    rcases ht with h | h <;> rcases hcap with h2 | h2 <;> subst h <;> subst h2 <;> rfl
  unfold on_text
  rw [hor]

/-- C8 witness: empty text and no caption leave the state unchanged. -/
theorem C8_empty_event_dropped_witness :
    on_text (fun _ => Except.ok "u") demoStateA 1 5 (some "") none 3 = (demoStateA, none) :=
  C8_empty_event_dropped (fun _ => Except.ok "u") demoStateA 1 5 (some "") none 3
    (Or.inr rfl) (Or.inl rfl)

/-- C9: the scenario the claim describes does not play out in the
source.  Photo at t=0 for key (1, 5), texts at t=5 and t=9, both
within the window: the first text event raises AttributeError at
line 135 and leaves the state unchanged (first component of its
result), and the second text event, run from that state, crashes the
same way — no panel is ever produced and the pending entry is never
consumed, in place of the claimed photo-carrying first panel and
photo-less second panel. -/
theorem C9_two_texts_crash_eval :
    on_text (fun _ => Except.ok "u")
        (on_text (fun _ => Except.ok "u") (on_photo ⟨[], []⟩ 1 5 0 "fid")
            1 5 (some "one") none 5).1
        1 5 (some "two") none 9
      = (⟨[((1, 5), ⟨0, "fid"⟩)], []⟩, some PyErr.attributeError) := by
  decide

/-- C10 counterexample: a panel whose photoUrl is the empty string has
a photoUrl, yet the assembled node carries no photo field (line 97
tests Python truthiness, not presence). -/
theorem C10_photo_field_counterexample :
    Panel.photo_url ⟨0, 0, 0, none, "t", some ""⟩ = some ""
    ∧ some "" ≠ (none : Option String)
    ∧ (dget (assemble_story [⟨0, 0, 0, none, "t", some ""⟩]).nodes (nodeId 1)).map Node.photo
        = some none := by
  decide

/-- C10 (amended): the node photo field equals the panel photoUrl when
that photoUrl is present and non-empty, and is absent otherwise; in
particular a panel with no photoUrl yields a node with no photo
field. -/
theorem C10_photo_field_amended (panels : List Panel) (i : Nat) (p : Panel)
    (h1 : 1 ≤ i) (hp : panels.get? (i - 1) = some p) :
    (dget (assemble_story panels).nodes (nodeId i)).map Node.photo
      = some (if pyTruthyOpt p.photo_url then p.photo_url else none) := by
  have hne : panels ≠ [] := by
    intro hcontra
    subst hcontra
    simp at hp
  rw [assemble_nodes_eq panels hne]
  rw [dget_nodesFrom panels.length panels 1 i, if_pos h1, hp]
  rfl

/-- C10 witness at a panel with a non-empty photoUrl. -/
theorem C10_photo_field_amended_witness :
    (dget (assemble_story [⟨0, 0, 0, none, "t", some "http://u"⟩]).nodes (nodeId 1)).map Node.photo
      = some (if pyTruthyOpt (some "http://u") then some "http://u" else none) :=
  C10_photo_field_amended [⟨0, 0, 0, none, "t", some "http://u"⟩] 1
    ⟨0, 0, 0, none, "t", some "http://u"⟩ (by decide) (by decide)
